import Mathlib

/-!
Verification of the session/authentication subsystem of the crjyouth-elibrary
repository: shallow embedding of the client-side SessionCache
(frontend/src/utils/sessionCache.js), SessionManager
(frontend/src/services/sessionManager.js), login form (Login.jsx), header
logout handlers (Header.jsx), and models of the server-side SessionStore and
RateLimiter as documented by the repository.

Times are milliseconds since the Unix epoch (JavaScript `Date.now()`), hence
natural numbers.  JavaScript `null`/`undefined` fields are modelled with
`Option`; JavaScript truthiness of a numeric field (`null`, `undefined` and
`0` are falsy) is modelled explicitly.
-/

namespace ELib

/-! ## SessionCache (frontend/src/utils/sessionCache.js) -/

/-- The object stored in `this.sessionData` / localStorage by the cache. -/
structure SessionData where
  user : Option String
  sessionId : Option String
  /-- `expiresAt` ms since epoch; `none` models JS `null`/`undefined`. -/
  expiresAt : Option Nat
  lastRefresh : Nat
  deviceId : Option String
deriving Repr, DecidableEq

/-- State of the `SessionCache` singleton: the in-memory `sessionData` and
`lastRefresh` fields plus the localStorage entry under the cache key. -/
structure SessionCache where
  sessionData : Option SessionData
  lastRefresh : Nat
  storage : Option SessionData
deriving Repr, DecidableEq

/-- `this.refreshThreshold = 2 * 60 * 1000` (2 minutes, in ms). -/
def refreshThreshold : Nat := 2 * 60 * 1000

/-- JS truthiness of a numeric `expiresAt` field: `null`/`undefined` and `0`
are falsy. -/
def numTruthy : Option Nat → Bool
  | none => false
  | some e => e ≠ 0

/-- `needsRefresh()`:
returns `true` if `!this.sessionData || !this.sessionData.expiresAt`, else
computes `timeUntilExpiry = expiresAt - now` and returns
`timeUntilExpiry <= refreshThreshold || timeUntilExpiry <= 0`. -/
def needsRefresh (c : SessionCache) (now : Nat) : Bool :=
  match c.sessionData with
  | none => true
  | some d =>
    if numTruthy d.expiresAt = false then true
    else
      let timeUntilExpiry : Int := (d.expiresAt.getD 0 : Int) - (now : Int)
      timeUntilExpiry ≤ (refreshThreshold : Int) || timeUntilExpiry ≤ 0

/-- `isValid()`: `false` if `!this.sessionData || !this.sessionData.expiresAt`,
else `this.sessionData.expiresAt > Date.now()`. -/
def isValid (c : SessionCache) (now : Nat) : Bool :=
  match c.sessionData with
  | none => false
  | some d =>
    if numTruthy d.expiresAt = false then false
    else decide ((now : Nat) < d.expiresAt.getD 0)

/-- `saveToStorage()`: writes `this.sessionData` to localStorage only when it
is non-null. -/
def saveToStorage (c : SessionCache) : SessionCache :=
  match c.sessionData with
  | some _ => { c with storage := c.sessionData }
  | none => c

/-- `updateExpiry(newExpiresAt)`: guarded by `if (this.sessionData)`; when a
session is cached it overwrites `expiresAt`, sets `this.lastRefresh = now` and
saves to storage; otherwise it does nothing at all. -/
def updateExpiry (c : SessionCache) (newExpiresAt : Nat) (now : Nat) : SessionCache :=
  match c.sessionData with
  | some d =>
      saveToStorage
        { c with sessionData := some { d with expiresAt := some newExpiresAt },
                 lastRefresh := now }
  | none => c

/-- `clear()`: resets the in-memory fields and removes the localStorage
entry. -/
def SessionCache.clear (_c : SessionCache) : SessionCache :=
  { sessionData := none, lastRefresh := 0, storage := none }

/-! ## SessionManager (frontend/src/services/sessionManager.js) -/

/-- Outcome of the `fetch` inside `_performRefresh`: an ok response whose JSON
body may carry `expires_at`, a non-ok response with an HTTP status, or a
thrown network error. -/
inductive RefreshResponse where
  | ok (expires_at : Option Nat)
  | httpError (status : Nat)
  | networkError
deriving Repr, DecidableEq

/-- `_performRefresh()`: on an ok response returns `true`, updating the cache
expiry when `data.expires_at` is truthy; on a non-ok response or a thrown
error returns `false` and leaves the cache alone. -/
def performRefresh (c : SessionCache) (resp : RefreshResponse) (now : Nat) :
    Bool × SessionCache :=
  match resp with
  | .ok ea =>
      if numTruthy ea then (true, updateExpiry c (ea.getD 0) now)
      else (true, c)
  | .httpError _ => (false, c)
  | .networkError => (false, c)

/-- The mutable fields of the `SessionManager` singleton: `isRefreshing` and
the shared in-flight `refreshPromise` (promises are named by identifiers). -/
structure ManagerState where
  isRefreshing : Bool
  refreshPromise : Option Nat
deriving Repr, DecidableEq

/-- The synchronous prefix of `refreshSession()` (everything before the first
`await`): if a refresh is already in flight it returns the shared promise,
changes nothing and issues no network request; otherwise it sets
`isRefreshing`, stores the promise of a fresh `_performRefresh()` call and
issues exactly one network request.  Result: (promise awaited by this caller,
manager state after the call, number of network refresh requests issued). -/
def refreshSession (s : ManagerState) (freshPromise : Nat) :
    Option Nat × ManagerState × Nat :=
  if s.isRefreshing then (s.refreshPromise, s, 0)
  else (some freshPromise,
        { isRefreshing := true, refreshPromise := some freshPromise }, 1)

/-- The `finally` block of `refreshSession()`: once the awaited promise
settles, the in-flight handle is cleared. -/
def refreshSettle (_s : ManagerState) : ManagerState :=
  { isRefreshing := false, refreshPromise := none }

/-! ## Login form (frontend/src/components/Login/Login.jsx) -/

/-- The body object POSTed to `/api/v1/login` by `handleLogin`. -/
structure LoginBody where
  email : String
  password : String
  nonce : String
  device_id : String
deriving Repr, DecidableEq

/-- `navigator.userAgent + "_" + screen.width + "x" + screen.height`. -/
def mkDeviceId (userAgent : String) (width height : Nat) : String :=
  userAgent ++ "_" ++ toString width ++ "x" ++ toString height

/-- `handleLogin`'s `loginData`: the email and password fields come straight
from the controlled inputs (`localEmail`, `localpassword`), the nonce from
the `/api/v1/nonce` response, and the device id from the user agent and
screen size.  The password is sent as typed; no hashing is applied. -/
def loginData (localEmail localpassword nonce userAgent : String)
    (width height : Nat) : LoginBody :=
  { email := localEmail
    password := localpassword
    nonce := nonce
    device_id := mkDeviceId userAgent width height }

/-! ## Redux user slice (frontend/src/features/user/userSlice.js) -/

/-- The `user` slice state. -/
structure UserState where
  firstname : String
  lastname : String
  user_id : String
  is_admin : Bool
deriving Repr, DecidableEq

/-- The slice's `initialState`. -/
def initialUserState : UserState :=
  { firstname := "", lastname := "", user_id := "", is_admin := false }

/-- The `logoutUser` reducer: resets every field. -/
def logoutUserReducer (_s : UserState) : UserState := initialUserState

/-! ## Header logout handlers (frontend/src/components/Header/Header.jsx) and
`SessionManager.logoutAllSessions` -/

/-- Outcome of a `fetch` call as observed by the caller. -/
inductive FetchOutcome where
  | ok
  | httpError (status : Nat)
  | networkError
deriving Repr, DecidableEq

/-- `logoutAllSessions()`: returns `true` on an ok response, and — by the
explicit comments in the source — also returns `true` on a non-ok response
and on a thrown network error, so that local logout proceeds. -/
def logoutAllSessions : FetchOutcome → Bool
  | .ok => true
  | .httpError _ => true
  | .networkError => true

/-- The client-visible local state driven by the Header handlers: the session
cache, the Redux user slice, and the current route. -/
structure ClientState where
  cache : SessionCache
  user : UserState
  route : String
deriving Repr, DecidableEq

/-- `handleLogoutAll`: clears the session cache first, then calls
`sessionManager.logoutAllSessions()`; on `true` it dispatches `logoutUser`
and navigates to `/`, on `false` it clears again, dispatches and navigates
(`logoutAllSessions` never throws, so the catch branch is unreachable). -/
def handleLogoutAll (s : ClientState) (outcome : FetchOutcome) : ClientState :=
  let s1 : ClientState := { s with cache := s.cache.clear }
  if logoutAllSessions outcome then
    { s1 with user := logoutUserReducer s1.user, route := "/" }
  else
    { s1 with cache := s1.cache.clear,
              user := logoutUserReducer s1.user, route := "/" }

/-- `SessionManager.logoutUser()`: dispatches `user/logoutUser`, clears the
session cache and storage, and redirects to `/login`. -/
def logoutUser (s : ClientState) : ClientState :=
  { cache := s.cache.clear, user := logoutUserReducer s.user, route := "/login" }

/-! ## Retry with backoff (sessionManager.js, `SESSION_REFRESH_CONFIG`,
`retryWithBackoff`, `handleApiError`) -/

/-- `SESSION_REFRESH_CONFIG.RETRY_BACKOFF = [250, 1000, 2000]` (ms). -/
def RETRY_BACKOFF : List Nat := [250, 1000, 2000]

/-- `SESSION_REFRESH_CONFIG.MAX_RETRIES = 3`. -/
def MAX_RETRIES : Nat := 3

/-- The delay expression
`RETRY_BACKOFF[attempt] || RETRY_BACKOFF[RETRY_BACKOFF.length - 1]`:
JS `||` falls through to the last entry when the indexed value is `undefined`
(index out of bounds) or `0` (falsy). -/
def backoffDelay (attempt : Nat) : Nat :=
  match RETRY_BACKOFF.get? attempt with
  | some d => if d = 0 then RETRY_BACKOFF.getD (RETRY_BACKOFF.length - 1) 0 else d
  | none => RETRY_BACKOFF.getD (RETRY_BACKOFF.length - 1) 0

/-- Observable events of the refresh/retry logic, in order of occurrence. -/
inductive Ev where
  /-- a call to `refreshSession()` -/
  | refreshCall
  /-- `await new Promise(resolve => setTimeout(resolve, ms))` -/
  | delay (ms : Nat)
  /-- an invocation of `requestFn()` (the original request) -/
  | requestAttempt
  /-- a call to `logoutUser()` -/
  | logout
deriving Repr, DecidableEq

/-- `retryWithBackoff(requestFn, attempt)`: `env k` is the outcome of the
`k`-th invocation of `requestFn` (`some status` a response with that HTTP
status, `none` a thrown network error).  Once `attempt` reaches
`MAX_RETRIES` it logs out and returns `null`; otherwise it sleeps for the
scheduled delay, invokes `requestFn`, recurses on a 401 or a thrown error,
and returns any other response.  Result: (returned response status or
`none` for `null`, trace of events). -/
def retryWithBackoff (env : Nat → Option Nat) (attempt : Nat) :
    Option Nat × List Ev :=
  if _h : MAX_RETRIES ≤ attempt then (none, [.logout])
  else
    let d := backoffDelay attempt
    match env attempt with
    | none =>
        let r := retryWithBackoff env (attempt + 1)
        (r.1, .delay d :: .requestAttempt :: r.2)
    | some status =>
        if status = 401 then
          let r := retryWithBackoff env (attempt + 1)
          (r.1, .delay d :: .requestAttempt :: r.2)
        else (some status, [.delay d, .requestAttempt])
termination_by MAX_RETRIES - attempt
decreasing_by all_goals omega

/-- `handleApiError(response, originalRequest)`: on a 401 it awaits exactly
one `refreshSession()` call (whose outcome is `refreshResult`); on success it
retries the original request with backoff, on failure it calls `logoutUser()`
and returns `null`; any non-401 response is passed through untouched. -/
def handleApiError (status : Nat) (refreshResult : Bool)
    (env : Nat → Option Nat) : Option Nat × List Ev :=
  if status = 401 then
    if refreshResult then
      let r := retryWithBackoff env 0
      (r.1, .refreshCall :: r.2)
    else (none, [.refreshCall, .logout])
  else (some status, [])

/-! ## Server-side SessionStore -/

/-- Modelled from the spec: the backend session-store implementation is not
under `src/`; PERFORMANCE_ISSUES.md ("Session Management Overhead") confirms
it manages 5 sessions per user with LRU eviction on every login.  A server
session record (§3 of the spec). -/
structure Session where
  sessionId : Nat
  userId : Nat
  deviceId : Nat
  createdAt : Nat
  expiresAt : Nat
  lastRefreshedAt : Nat
deriving Repr, DecidableEq

/-- Modelled from the spec: the server-side store of session records,
with a counter supplying fresh session ids. -/
structure SessionStore where
  sessions : List Session
  nextId : Nat
deriving Repr, DecidableEq

/-- The per-user concurrent-session cap (N = 5). -/
def MAX_SESSIONS_PER_USER : Nat := 5

/-- The fixed session TTL (24 h, in ms). -/
def SESSION_TTL : Nat := 24 * 60 * 60 * 1000

/-- The sessions belonging to one user. -/
def sessionsOf (st : SessionStore) (u : Nat) : List Session :=
  st.sessions.filter (fun s => s.userId == u)

/-- The least-recently-refreshed session of a list (minimal
`lastRefreshedAt`). -/
def lruSession : List Session → Option Session
  | [] => none
  | s :: rest =>
    match lruSession rest with
    | none => some s
    | some m => if m.lastRefreshedAt < s.lastRefreshedAt then some m else some s

/-- Modelled from the spec: `create(userId, deviceId)` enforces the
5-session-per-user cap via LRU eviction — when the user already has
`MAX_SESSIONS_PER_USER` sessions the least-recently-refreshed one is removed
rather than the login being rejected — then inserts a fresh session with
`expiresAt = now + SESSION_TTL` and `lastRefreshedAt = now`. -/
def SessionStore.create (st : SessionStore) (u d now : Nat) :
    Session × SessionStore :=
  let userSessions := sessionsOf st u
  let afterEvict : SessionStore :=
    if MAX_SESSIONS_PER_USER ≤ userSessions.length then
      match lruSession userSessions with
      | some victim =>
          { st with sessions :=
              st.sessions.filter (fun s => s.sessionId != victim.sessionId) }
      | none => st
    else st
  let newSession : Session :=
    { sessionId := st.nextId, userId := u, deviceId := d,
      createdAt := now, expiresAt := now + SESSION_TTL, lastRefreshedAt := now }
  (newSession,
   { sessions := newSession :: afterEvict.sessions, nextId := st.nextId + 1 })

/-- The empty store. -/
def emptyStore : SessionStore := { sessions := [], nextId := 0 }

/-- The first of six successive logins of user `u` from distinct devices
10–15 at times 0–5. -/
def firstLogin (u : Nat) : Session × SessionStore := emptyStore.create u 10 0

/-- The store after five successive logins of user `u` from distinct devices
at times 0–4. -/
def fiveLogins (u : Nat) : SessionStore :=
  (((((firstLogin u).2.create u 11 1).2.create u 12 2).2.create
      u 13 3).2.create u 14 4).2

/-- The store after a sixth login of user `u` from yet another device at
time 5. -/
def sixLogins (u : Nat) : SessionStore :=
  ((fiveLogins u).create u 15 5).2

/-! ## Server-side RateLimiter -/

/-- Modelled from the spec and PERFORMANCE_ISSUES.md ("Rate Limiting
Storage"): the server's `route_utils.py` is not under `src/`; per the
repository's own documentation it keeps an in-memory `request_counts`
dictionary with per-key counts and window starts and performs **no cleanup
of old rate limit data**.  One entry of that dictionary. -/
structure RateBucket where
  key : Nat × Nat
  count : Nat
  windowStart : Nat
deriving Repr, DecidableEq

/-- The in-memory `request_counts` dictionary, as an association list. -/
structure RateLimiter where
  buckets : List RateBucket
deriving Repr, DecidableEq

/-- The rate-limit window duration (ms). -/
def RATE_WINDOW : Nat := 60000

/-- Modelled from the spec and PERFORMANCE_ISSUES.md: one request for
`key = (identity-or-IP, route)` at time `now`.  A missing bucket is created
lazily; a lapsed window resets the bucket's count; above the threshold the
request is rejected.  Buckets are never removed — the documented
known-bad behavior of the in-memory dictionary. -/
def RateLimiter.allow (rl : RateLimiter) (key : Nat × Nat)
    (now threshold : Nat) : Bool × RateLimiter :=
  match rl.buckets.find? (fun b => b.key == key) with
  | none =>
      (true,
       { buckets := { key := key, count := 1, windowStart := now } :: rl.buckets })
  | some b =>
      if b.windowStart + RATE_WINDOW < now then
        (true, { buckets := rl.buckets.map fun c =>
            if c.key == key then { c with count := 1, windowStart := now } else c })
      else if threshold ≤ b.count then
        (false, { buckets := rl.buckets.map fun c =>
            if c.key == key then { c with count := c.count + 1 } else c })
      else
        (true, { buckets := rl.buckets.map fun c =>
            if c.key == key then { c with count := c.count + 1 } else c })

end ELib

namespace ELib

/-! ## Claims C7, C8, C10 -/

/-- C7: `SessionCache.needsRefresh()` returns true exactly when there is no
cached session, or no expiry is known, or the time remaining until expiry is
at or below the 2-minute threshold; in particular true when expiry is 90 s
away and false when it is 10 minutes away. -/
theorem needsRefresh_correct :
    (∀ (c : SessionCache) (now : Nat),
      needsRefresh c now = true ↔
        (c.sessionData = none ∨
         ∃ d, c.sessionData = some d ∧
           (d.expiresAt = none ∨
            ∃ e, d.expiresAt = some e ∧ (e : Int) - (now : Int) ≤ refreshThreshold))) ∧
    needsRefresh
      ⟨some ⟨some "u", some "s", some 1090000, 0, some "d"⟩, 0, none⟩ 1000000 = true ∧
    needsRefresh
      ⟨some ⟨some "u", some "s", some 1600000, 0, some "d"⟩, 0, none⟩ 1000000 = false := by
  refine ⟨?_, by decide, by decide⟩
  intro c now
  rcases c with ⟨sd, lr, st⟩
  cases sd with
  | none => simp [needsRefresh]
  | some d =>
    rcases d with ⟨u, si, ea, lrf, di⟩
    cases ea with
    | none => simp [needsRefresh, numTruthy]
    | some e =>
      cases Nat.eq_zero_or_pos e with
      | inl h0 =>
        subst h0
        simp only [needsRefresh, numTruthy]
        simp
        omega
      | inr hpos =>
        simp only [needsRefresh, numTruthy]
        have hne : e ≠ 0 := Nat.pos_iff_ne_zero.mp hpos
        simp [hne, refreshThreshold, Bool.or_eq_true, decide_eq_true_eq]
        omega

/-- C8: `SessionCache.isValid()` returns true iff a session is cached with a
known expiry that lies strictly in the future; false when nothing is cached,
no expiry is known, or the expiry has been reached or passed. -/
theorem isValid_correct (c : SessionCache) (now : Nat) :
    isValid c now = true ↔
      ∃ d e, c.sessionData = some d ∧ d.expiresAt = some e ∧ now < e := by
  rcases c with ⟨sd, lr, st⟩
  cases sd with
  | none => simp [isValid]
  | some d =>
    rcases d with ⟨u, si, ea, lrf, di⟩
    cases ea with
    | none => simp [isValid, numTruthy]
    | some e =>
      cases Nat.eq_zero_or_pos e with
      | inl h0 =>
        subst h0
        simp [isValid, numTruthy]
      | inr hpos =>
        have hne : e ≠ 0 := Nat.pos_iff_ne_zero.mp hpos
        simp [isValid, numTruthy, hne]

/-- C10: `updateExpiry` called while no session is cached leaves the cache
(and its storage mirror) completely unchanged; consequently a successful
server refresh processed by `_performRefresh` while the cache is empty leaves
the cache empty. -/
theorem updateExpiry_frame (c : SessionCache) (h : c.sessionData = none)
    (newExpiresAt now : Nat) (resp : RefreshResponse) :
    updateExpiry c newExpiresAt now = c ∧ (performRefresh c resp now).2 = c := by
  constructor
  · unfold updateExpiry
    rw [h]
  · cases resp with
    | ok ea =>
      cases ea with
      | none => simp [performRefresh, numTruthy]
      | some e =>
        by_cases he : e = 0
        · subst he; simp [performRefresh, numTruthy]
        · simp [performRefresh, numTruthy, he, updateExpiry, h]
    | httpError s => simp [performRefresh]
    | networkError => simp [performRefresh]

/-- Witness for C10 at a concrete empty cache. -/
theorem updateExpiry_frame_witness :
    updateExpiry ⟨none, 0, none⟩ 999999 5 = ⟨none, 0, none⟩ ∧
    (performRefresh ⟨none, 0, none⟩ (.ok (some 999999)) 5).2 = ⟨none, 0, none⟩ :=
  updateExpiry_frame ⟨none, 0, none⟩ rfl 999999 5 (.ok (some 999999))

/-! ## Claim C1: refresh deduplication -/

/-- C1: when a second `refreshSession()` call arrives while the first call's
refresh is still outstanding, the second caller receives the very promise the
first caller awaits (hence both resolve to the same outcome) and exactly one
network refresh request is issued between the two calls. -/
theorem refreshSession_dedup (s : ManagerState) (p q : Nat)
    (h : s.isRefreshing = false) :
    (refreshSession (refreshSession s p).2.1 q).1 = (refreshSession s p).1 ∧
    (refreshSession s p).2.2 + (refreshSession (refreshSession s p).2.1 q).2.2 = 1 ∧
    (refreshSession (refreshSession s p).2.1 q).2.1 = (refreshSession s p).2.1 := by
  simp [refreshSession, h]

/-- Witness for C1 at a concrete idle manager state. -/
theorem refreshSession_dedup_witness :
    (refreshSession (refreshSession ⟨false, none⟩ 7).2.1 8).1 =
      (refreshSession ⟨false, none⟩ 7).1 ∧
    (refreshSession ⟨false, none⟩ 7).2.2 +
      (refreshSession (refreshSession ⟨false, none⟩ 7).2.1 8).2.2 = 1 ∧
    (refreshSession (refreshSession ⟨false, none⟩ 7).2.1 8).2.1 =
      (refreshSession ⟨false, none⟩ 7).2.1 :=
  refreshSession_dedup ⟨false, none⟩ 7 8 rfl

/-! ## Claim C2: login body -/

/-- C2 counterexample: at a concrete login submission the `password` field of
the body POSTed to `/api/v1/login` is the raw entered password itself, not a
hash of the password combined with the nonce — refuting the claim's
"(not the raw password)". -/
theorem loginData_sends_raw_password :
    (loginData "a@b.c" "secretpw" "nonce1" "UA" 800 600).password = "secretpw" ∧
    (loginData "a@b.c" "secretpw" "nonce1" "UA" 800 600).nonce = "nonce1" := by
  constructor <;> rfl

/-- C2 (amended): for every login submission the body POSTed to
`/api/v1/login` carries the raw entered password in its `password` field,
together with the entered email, the freshly fetched nonce, and a device id
built from the user agent and screen dimensions. -/
theorem loginData_fields (email pw nonce ua : String) (w h : Nat) :
    loginData email pw nonce ua w h =
      { email := email, password := pw, nonce := nonce,
        device_id := ua ++ "_" ++ toString w ++ "x" ++ toString h } := rfl

/-! ## Claim C9: logout-all clears local state unconditionally -/

/-- C9: for every outcome of the remote `/api/v1/logout-all` call — ok,
non-OK HTTP status, or network failure — `handleLogoutAll` clears the session
cache (memory and storage) and the local identity state; only the remote
revocation is best-effort. -/
theorem handleLogoutAll_clears_local (s : ClientState) (outcome : FetchOutcome) :
    (handleLogoutAll s outcome).cache.sessionData = none ∧
    (handleLogoutAll s outcome).cache.storage = none ∧
    (handleLogoutAll s outcome).user = initialUserState ∧
    (handleLogoutAll s outcome).route = "/" := by
  cases outcome <;>
    simp [handleLogoutAll, logoutAllSessions, SessionCache.clear, logoutUserReducer]

/-! ## Claims C4, C5: 401 handling and retry with backoff -/

/-- `retryWithBackoff` never calls `refreshSession` (helper). -/
lemma retry_no_refreshCall (env : Nat → Option Nat) :
    ∀ (n attempt : Nat), MAX_RETRIES - attempt ≤ n →
      Ev.refreshCall ∉ (retryWithBackoff env attempt).2 := by
  intro n
  induction n with
  | zero =>
    intro attempt hn
    have hm : MAX_RETRIES ≤ attempt := by omega
    rw [retryWithBackoff, dif_pos hm]
    simp
  | succ n ih =>
    intro attempt hn
    by_cases hm : MAX_RETRIES ≤ attempt
    · rw [retryWithBackoff, dif_pos hm]; simp
    · rw [retryWithBackoff, dif_neg hm]
      have hrec := ih (attempt + 1) (by omega)
      cases he : env attempt with
      | none => simpa using hrec
      | some status =>
        by_cases hs : status = 401
        · subst hs
          simpa using hrec
        · simp [hs]

/-- `retryWithBackoff` makes at most `MAX_RETRIES - attempt` invocations of
the original request (helper). -/
lemma retry_attempt_count (env : Nat → Option Nat) :
    ∀ (n attempt : Nat), MAX_RETRIES - attempt ≤ n →
      ((retryWithBackoff env attempt).2.count .requestAttempt) ≤
        MAX_RETRIES - attempt := by
  intro n
  induction n with
  | zero =>
    intro attempt hn
    have hm : MAX_RETRIES ≤ attempt := by omega
    rw [retryWithBackoff, dif_pos hm]
    simp
  | succ n ih =>
    intro attempt hn
    by_cases hm : MAX_RETRIES ≤ attempt
    · rw [retryWithBackoff, dif_pos hm]; simp
    · rw [retryWithBackoff, dif_neg hm]
      have hrec := ih (attempt + 1) (by omega)
      cases he : env attempt with
      | none =>
        simp [List.count_cons]
        omega
      | some status =>
        by_cases hs : status = 401
        · subst hs
          simp [List.count_cons]
          omega
        · simp [hs, List.count_cons]
          omega

/-- C5: the delay before retry attempt `k` follows the fixed schedule
250 ms, 1 s, 2 s, with the last delay repeated for any further attempt
index; the number of request attempts never exceeds `MAX_RETRIES = 3`; and
when every attempt keeps returning 401 the whole run is three delayed
attempts followed by a logout. -/
theorem retryWithBackoff_schedule (env : Nat → Option Nat) :
    backoffDelay 0 = 250 ∧ backoffDelay 1 = 1000 ∧ backoffDelay 2 = 2000 ∧
    (∀ k, 2 ≤ k → backoffDelay k = 2000) ∧
    ((retryWithBackoff env 0).2.count .requestAttempt ≤ MAX_RETRIES) ∧
    ((∀ k, env k = some 401) →
      retryWithBackoff env 0 =
        (none, [.delay 250, .requestAttempt, .delay 1000, .requestAttempt,
                .delay 2000, .requestAttempt, .logout])) := by
  refine ⟨rfl, rfl, rfl, ?_, ?_, ?_⟩
  · intro k hk
    rcases k with _ | _ | k
    · omega
    · omega
    · cases k with
      | zero => rfl
      | succ m => simp [backoffDelay, RETRY_BACKOFF, List.get?]
  · simpa using retry_attempt_count env MAX_RETRIES 0 (by omega)
  · intro h401
    have e0 := h401 0
    have e1 := h401 1
    have e2 := h401 2
    rw [retryWithBackoff, dif_neg (by simp [MAX_RETRIES]), e0]
    simp only [if_pos rfl]
    rw [retryWithBackoff, dif_neg (by simp [MAX_RETRIES]), e1]
    simp only [if_pos rfl]
    rw [retryWithBackoff, dif_neg (by simp [MAX_RETRIES]), e2]
    simp only [if_pos rfl]
    rw [retryWithBackoff, dif_pos (by simp [MAX_RETRIES])]
    rfl

/-- Witness for C5 at the constantly-401 environment. -/
theorem retryWithBackoff_schedule_witness :
    retryWithBackoff (fun _ => some 401) 0 =
      (none, [.delay 250, .requestAttempt, .delay 1000, .requestAttempt,
              .delay 2000, .requestAttempt, .logout]) :=
  (retryWithBackoff_schedule (fun _ => some 401)).2.2.2.2.2 (fun _ => rfl)

/-- C4: on a 401, `handleApiError` performs exactly one `refreshSession()`
call; if the refresh succeeded it retries the original request via
`retryWithBackoff`, and if the refresh failed it calls `logoutUser()` —
which clears the cache and storage, resets the identity slice and navigates
to `/login` — and returns `null` without retrying. -/
theorem handleApiError_401 (refreshResult : Bool) (env : Nat → Option Nat) :
    ((handleApiError 401 refreshResult env).2.count .refreshCall = 1) ∧
    (refreshResult = true →
      handleApiError 401 refreshResult env =
        ((retryWithBackoff env 0).1, .refreshCall :: (retryWithBackoff env 0).2)) ∧
    (refreshResult = false →
      handleApiError 401 refreshResult env = (none, [.refreshCall, .logout])) ∧
    (∀ s : ClientState,
      (logoutUser s).cache.sessionData = none ∧
      (logoutUser s).cache.storage = none ∧
      (logoutUser s).user = initialUserState ∧
      (logoutUser s).route = "/login") := by
  refine ⟨?_, ?_, ?_, ?_⟩
  · cases refreshResult with
    | false => rfl
    | true =>
      have hno := retry_no_refreshCall env MAX_RETRIES 0 (by omega)
      simp [handleApiError, List.count_cons, List.count_eq_zero.mpr hno]
  · intro h; subst h; rfl
  · intro h; subst h; rfl
  · intro s
    simp [logoutUser, SessionCache.clear, logoutUserReducer]

/-- Witness for C4: refresh failure at a concrete environment yields the
terminal logout transition. -/
theorem handleApiError_401_witness :
    handleApiError 401 false (fun _ => none) = (none, [.refreshCall, .logout]) :=
  (handleApiError_401 false (fun _ => none)).2.2.1 rfl

/-! ## Claim C3: per-user session cap with LRU eviction -/

/-- C3: for every user, after six successful logins from distinct devices
exactly five sessions remain; the removed session is the first login's (the
least-recently-refreshed of the five present before the sixth login), and the
sixth login is not rejected — its session (id 5) is present. -/
theorem sessionStore_lru_cap (u : Nat) :
    (sixLogins u).sessions.map Session.sessionId = [5, 4, 3, 2, 1] ∧
    (sessionsOf (sixLogins u) u).length = MAX_SESSIONS_PER_USER ∧
    ((sixLogins u).sessions.map Session.sessionId).count 0 = 0 ∧
    (∀ s ∈ (fiveLogins u).sessions,
      (firstLogin u).1.lastRefreshedAt ≤ s.lastRefreshedAt) := by
  have h1 : firstLogin u =
      (⟨0, u, 10, 0, 86400000, 0⟩, ⟨[⟨0, u, 10, 0, 86400000, 0⟩], 1⟩) := by
    simp [firstLogin, emptyStore, SessionStore.create, sessionsOf, lruSession,
      MAX_SESSIONS_PER_USER, SESSION_TTL]
  have h2 : (⟨[⟨0, u, 10, 0, 86400000, 0⟩], 1⟩ : SessionStore).create u 11 1 =
      (⟨1, u, 11, 1, 86400001, 1⟩,
       ⟨[⟨1, u, 11, 1, 86400001, 1⟩, ⟨0, u, 10, 0, 86400000, 0⟩], 2⟩) := by
    simp [SessionStore.create, sessionsOf, lruSession,
      MAX_SESSIONS_PER_USER, SESSION_TTL]
  have h3 : (⟨[⟨1, u, 11, 1, 86400001, 1⟩, ⟨0, u, 10, 0, 86400000, 0⟩], 2⟩ :
        SessionStore).create u 12 2 =
      (⟨2, u, 12, 2, 86400002, 2⟩,
       ⟨[⟨2, u, 12, 2, 86400002, 2⟩, ⟨1, u, 11, 1, 86400001, 1⟩,
         ⟨0, u, 10, 0, 86400000, 0⟩], 3⟩) := by
    simp [SessionStore.create, sessionsOf, lruSession,
      MAX_SESSIONS_PER_USER, SESSION_TTL]
  have h4 : (⟨[⟨2, u, 12, 2, 86400002, 2⟩, ⟨1, u, 11, 1, 86400001, 1⟩,
        ⟨0, u, 10, 0, 86400000, 0⟩], 3⟩ : SessionStore).create u 13 3 =
      (⟨3, u, 13, 3, 86400003, 3⟩,
       ⟨[⟨3, u, 13, 3, 86400003, 3⟩, ⟨2, u, 12, 2, 86400002, 2⟩,
         ⟨1, u, 11, 1, 86400001, 1⟩, ⟨0, u, 10, 0, 86400000, 0⟩], 4⟩) := by
    simp [SessionStore.create, sessionsOf, lruSession,
      MAX_SESSIONS_PER_USER, SESSION_TTL]
  have h5 : (⟨[⟨3, u, 13, 3, 86400003, 3⟩, ⟨2, u, 12, 2, 86400002, 2⟩,
        ⟨1, u, 11, 1, 86400001, 1⟩, ⟨0, u, 10, 0, 86400000, 0⟩], 4⟩ :
        SessionStore).create u 14 4 =
      (⟨4, u, 14, 4, 86400004, 4⟩,
       ⟨[⟨4, u, 14, 4, 86400004, 4⟩, ⟨3, u, 13, 3, 86400003, 3⟩,
         ⟨2, u, 12, 2, 86400002, 2⟩, ⟨1, u, 11, 1, 86400001, 1⟩,
         ⟨0, u, 10, 0, 86400000, 0⟩], 5⟩) := by
    simp [SessionStore.create, sessionsOf, lruSession,
      MAX_SESSIONS_PER_USER, SESSION_TTL]
  have hfive : fiveLogins u =
      ⟨[⟨4, u, 14, 4, 86400004, 4⟩, ⟨3, u, 13, 3, 86400003, 3⟩,
        ⟨2, u, 12, 2, 86400002, 2⟩, ⟨1, u, 11, 1, 86400001, 1⟩,
        ⟨0, u, 10, 0, 86400000, 0⟩], 5⟩ := by
    rw [fiveLogins, h1]
    rw [show (Prod.snd (α := Session) (β := SessionStore)
      (⟨0, u, 10, 0, 86400000, 0⟩, ⟨[⟨0, u, 10, 0, 86400000, 0⟩], 1⟩)) =
        ⟨[⟨0, u, 10, 0, 86400000, 0⟩], 1⟩ from rfl, h2]
    rw [show (Prod.snd (α := Session) (β := SessionStore)
      (⟨1, u, 11, 1, 86400001, 1⟩,
       ⟨[⟨1, u, 11, 1, 86400001, 1⟩, ⟨0, u, 10, 0, 86400000, 0⟩], 2⟩)) =
        ⟨[⟨1, u, 11, 1, 86400001, 1⟩, ⟨0, u, 10, 0, 86400000, 0⟩], 2⟩ from rfl,
      h3]
    rw [show (Prod.snd (α := Session) (β := SessionStore)
      (⟨2, u, 12, 2, 86400002, 2⟩,
       ⟨[⟨2, u, 12, 2, 86400002, 2⟩, ⟨1, u, 11, 1, 86400001, 1⟩,
         ⟨0, u, 10, 0, 86400000, 0⟩], 3⟩)) =
        ⟨[⟨2, u, 12, 2, 86400002, 2⟩, ⟨1, u, 11, 1, 86400001, 1⟩,
          ⟨0, u, 10, 0, 86400000, 0⟩], 3⟩ from rfl, h4]
    rw [show (Prod.snd (α := Session) (β := SessionStore)
      (⟨3, u, 13, 3, 86400003, 3⟩,
       ⟨[⟨3, u, 13, 3, 86400003, 3⟩, ⟨2, u, 12, 2, 86400002, 2⟩,
         ⟨1, u, 11, 1, 86400001, 1⟩, ⟨0, u, 10, 0, 86400000, 0⟩], 4⟩)) =
        ⟨[⟨3, u, 13, 3, 86400003, 3⟩, ⟨2, u, 12, 2, 86400002, 2⟩,
          ⟨1, u, 11, 1, 86400001, 1⟩, ⟨0, u, 10, 0, 86400000, 0⟩], 4⟩ from rfl,
      h5]
  have h6 : (⟨[⟨4, u, 14, 4, 86400004, 4⟩, ⟨3, u, 13, 3, 86400003, 3⟩,
        ⟨2, u, 12, 2, 86400002, 2⟩, ⟨1, u, 11, 1, 86400001, 1⟩,
        ⟨0, u, 10, 0, 86400000, 0⟩], 5⟩ : SessionStore).create u 15 5 =
      (⟨5, u, 15, 5, 86400005, 5⟩,
       ⟨[⟨5, u, 15, 5, 86400005, 5⟩, ⟨4, u, 14, 4, 86400004, 4⟩,
         ⟨3, u, 13, 3, 86400003, 3⟩, ⟨2, u, 12, 2, 86400002, 2⟩,
         ⟨1, u, 11, 1, 86400001, 1⟩], 6⟩) := by
    simp [SessionStore.create, sessionsOf, lruSession,
      MAX_SESSIONS_PER_USER, SESSION_TTL]
  have hsix : sixLogins u =
      ⟨[⟨5, u, 15, 5, 86400005, 5⟩, ⟨4, u, 14, 4, 86400004, 4⟩,
        ⟨3, u, 13, 3, 86400003, 3⟩, ⟨2, u, 12, 2, 86400002, 2⟩,
        ⟨1, u, 11, 1, 86400001, 1⟩], 6⟩ := by
    rw [sixLogins, hfive, h6]
  refine ⟨by rw [hsix]; rfl, ?_, by rw [hsix]; rfl, ?_⟩
  · rw [hsix]
    simp [sessionsOf, MAX_SESSIONS_PER_USER]
  · intro s hs
    rw [hfive] at hs
    rw [h1]
    simp only [List.mem_cons, List.not_mem_nil, or_false] at hs
    rcases hs with h | h | h | h | h <;> subst h <;> simp

/-! ## Claim C6: rate limiter storage is not self-cleaning -/

/-- C6 fails on the code: `allow` never removes a bucket (the store only
grows), and at a concrete input — buckets for two clients created at time 0,
next request arriving at time 10⁹, long past any cleanup horizon — both
lapsed buckets are still stored.  This refutes the claim that every lapsed
bucket is eventually removed and that storage stays bounded. -/
theorem rateLimiter_never_cleans :
    (∀ (rl : RateLimiter) (key : Nat × Nat) (now threshold : Nat),
      rl.buckets.length ≤ (rl.allow key now threshold).2.buckets.length) ∧
    (((((RateLimiter.mk []).allow (1, 0) 0 10).2.allow
          (2, 0) 0 10).2.allow (3, 0) 1000000000 10).2.buckets.length = 3 ∧
     (((((RateLimiter.mk []).allow (1, 0) 0 10).2.allow
          (2, 0) 0 10).2.allow (3, 0) 1000000000 10).2.buckets.filter
            (fun b => b.windowStart + RATE_WINDOW < 1000000000)).length = 2) := by
  refine ⟨?_, by decide, by decide⟩
  intro rl key now threshold
  unfold RateLimiter.allow
  cases hf : rl.buckets.find? (fun b => b.key == key) with
  | none => simp
  | some b =>
    by_cases h1 : b.windowStart + RATE_WINDOW < now
    · simp [h1]
    · by_cases h2 : threshold ≤ b.count
      · simp [h1, h2]
      · simp [h1, h2]

end ELib
